import Mathlib

/-!
Verification of the NBA draft ROI analysis pipeline
(`value_metrics.py`, `team_draft_efficiency.py`, `analysis.py`).

The pipeline is a pure batch transform over an in-memory table of player
records.  We embed a table as a `List Player`, nullable numeric columns as
`Option ℚ` (a pandas `NaN` cell is `none`), and finite numeric cells as `ℚ`.
Derived columns produced by guarded numpy divisions can hold the IEEE
specials `inf`, `-inf` and `NaN`, so those metrics land in the small float
model `PFloat` below; `PFloat.nan` is the one value pandas' `notna` reports
as null.
-/

namespace NBA

/-- One row of the cleaned input table (`NBAStats_cleaned.csv`).
`DRAFT_NUMBER` and `DRAFT_ROUND` are nullable: `none` models a `NaN` cell,
i.e. an undrafted player. -/
structure Player where
  PLAYER_FIRST_NAME : String
  PLAYER_LAST_NAME : String
  TEAM_NAME : String
  DRAFT_YEAR : ℚ
  DRAFT_ROUND : Option ℚ
  DRAFT_NUMBER : Option ℚ
  PTS : ℚ
  REB : ℚ
  AST : ℚ
  career_length : ℚ
deriving DecidableEq

/-- Float values a numpy division can produce: a finite value, the two
infinities, or `NaN`.  Pandas' `notna` is true exactly off `nan`. -/
inductive PFloat where
  | nan : PFloat
  | inf : PFloat
  | ninf : PFloat
  | val : ℚ → PFloat
deriving DecidableEq

/-- IEEE-style division of two finite floats, as numpy performs it on the
(finite) operands the pipeline feeds it: a zero divisor yields `±inf` for a
nonzero numerator and `NaN` for `0/0`. -/
def fdiv (a b : ℚ) : PFloat :=
  if b ≠ 0 then PFloat.val (a / b)
  else if 0 < a then PFloat.inf
  else if a < 0 then PFloat.ninf
  else PFloat.nan

/-- `value_metrics.calculate_value_metrics`, line 24:
`value_score = (PTS + REB + AST) * career_length`. -/
def value_score (p : Player) : ℚ :=
  (p.PTS + p.REB + p.AST) * p.career_length

/-- `value_metrics.calculate_value_metrics`, lines 36-42: the column is
initialised to `NaN` and assigned `value_score / DRAFT_NUMBER` exactly on
the mask `DRAFT_NUMBER.notna() & (DRAFT_NUMBER > 0)`.  The guard keeps the
divisor nonzero, so the result is a plain nullable rational. -/
def draft_value_ratio (p : Player) : Option ℚ :=
  match p.DRAFT_NUMBER with
  | some d => if 0 < d then some (value_score p / d) else none
  | none => none

/-- `team_draft_efficiency.calculate_per_season_roi`, lines 29-33:
`np.where((career_length > 0) & (DRAFT_NUMBER.notna()),
value_score / (career_length * DRAFT_NUMBER), np.nan)`.  The guard does not
exclude a present draft number equal to 0, so the division can hit a zero
denominator and produce an infinity. -/
def roi_per_season (p : Player) : PFloat :=
  match p.DRAFT_NUMBER with
  | some d =>
      if 0 < p.career_length then fdiv (value_score p) (p.career_length * d)
      else PFloat.nan
  | none => PFloat.nan

/-- `team_draft_efficiency.calculate_per_season_roi`, lines 36-40:
`np.where(DRAFT_NUMBER.notna(), 100 - DRAFT_NUMBER, 0)`. -/
def expected_value (p : Player) : ℚ :=
  match p.DRAFT_NUMBER with
  | some d => 100 - d
  | none => 0

/-- `team_draft_efficiency.calculate_per_season_roi`, lines 42-46:
`np.where(expected_value > 0, value_score / expected_value, np.nan)`. -/
def efficiency_score (p : Player) : PFloat :=
  if 0 < expected_value p then fdiv (value_score p) (expected_value p)
  else PFloat.nan

/-- `team_draft_efficiency.categorize_pick`, lines 49-59: the cascading
`if/elif` chain over a nullable draft number. -/
def categorize_pick (draft_num : Option ℚ) : String :=
  match draft_num with
  | none => "Undrafted"
  | some d =>
      if d ≤ 5 then "Lottery (1-5)"
      else if d ≤ 14 then "Lottery (6-14)"
      else if d ≤ 30 then "First Round (15-30)"
      else "Second Round (31+)"

/-- `team_draft_efficiency.quality_tier`, lines 64-74: the cascading
`if/elif` chain over `value_score`. -/
def quality_tier (v : ℚ) : String :=
  if 200 ≤ v then "Elite (200+)"
  else if 100 ≤ v then "High Quality (100-199)"
  else if 50 ≤ v then "Solid Contributor (50-99)"
  else if 20 ≤ v then "Role Player (20-49)"
  else "Limited Impact (0-19)"

/-- `team_draft_efficiency.analyze_team_draft_efficiency`, line 88:
`drafted = df_enhanced[df_enhanced['DRAFT_NUMBER'].notna()]`. -/
def drafted_rows (df : List Player) : List Player :=
  df.filter (fun p => p.DRAFT_NUMBER.isSome)

/-- The index of the `groupby('TEAM_NAME')` aggregate: each distinct team
name appearing among the given rows. -/
def team_names (rows : List Player) : List String :=
  (rows.map Player.TEAM_NAME).dedup

/-- `total_picks` column (line 96): the group size,
`'PLAYER_FIRST_NAME': 'count'` per team. -/
def total_picks (rows : List Player) (team : String) : Nat :=
  (rows.filter (fun p => p.TEAM_NAME = team)).length

/-- A filtered `groupby('TEAM_NAME').size()` series looked up at one team:
the team has an entry exactly when some row passes the filter (lines
118-119, 129-130). -/
def group_size (rows : List Player) (keep : Player → Bool) (team : String) :
    Option Nat :=
  if (rows.filter (fun p => decide (p.TEAM_NAME = team) && keep p)).length = 0
  then none
  else some (rows.filter (fun p => decide (p.TEAM_NAME = team) && keep p)).length

/-- Lines 118, 121: `drafted[value_score >= 50].groupby('TEAM_NAME').size()`
mapped over the aggregate index, then `.fillna(0)`. -/
def quality_picks (rows : List Player) (team : String) : Nat :=
  (group_size rows (fun p => decide (50 ≤ value_score p)) team).getD 0

/-- Lines 119, 122: same with threshold `value_score >= 200`. -/
def elite_picks (rows : List Player) (team : String) : Nat :=
  (group_size rows (fun p => decide (200 ≤ value_score p)) team).getD 0

/-- Lines 129-131: `drafted[(DRAFT_NUMBER > 15) & (value_score >= 100)]`
grouped by team, mapped over the index, `.fillna(0)`. -/
def late_round_gems (rows : List Player) (team : String) : Nat :=
  (group_size rows
    (fun p =>
      (match p.DRAFT_NUMBER with | some d => decide (15 < d) | none => false)
      && decide (100 ≤ value_score p)) team).getD 0

/-- Round half to even (the rounding numpy's `round` applies), on ℚ. -/
def roundHalfEven (x : ℚ) : ℤ :=
  if Int.fract x < 1 / 2 then ⌊x⌋
  else if 1 / 2 < Int.fract x then ⌊x⌋ + 1
  else if ⌊x⌋ % 2 = 0 then ⌊x⌋ else ⌊x⌋ + 1

/-- Pandas `.round(1)`. -/
def round1 (x : ℚ) : ℚ :=
  (roundHalfEven (x * 10) : ℚ) / 10

/-- Line 125: `(quality_picks / total_picks * 100).round(1)` — the stored
column holds the ROUNDED value. -/
def quality_pick_rate (rows : List Player) (team : String) : ℚ :=
  round1 ((quality_picks rows team : ℚ) / (total_picks rows team : ℚ) * 100)

/-- Line 126: `(elite_picks / total_picks * 100).round(1)`. -/
def elite_pick_rate (rows : List Player) (team : String) : ℚ :=
  round1 ((elite_picks rows team : ℚ) / (total_picks rows team : ℚ) * 100)

/-- Line 134: `team_stats[team_stats['total_picks'] >= 10]`, the qualified
subset of the aggregate index. -/
def qualified_teams (rows : List Player) : List String :=
  (team_names rows).filter (fun t => 10 ≤ total_picks rows t)

/-- `analyze_team_draft_efficiency`, lines 88-137: filter to drafted rows;
with none, print and `return None` (lines 90-92); otherwise return the pair
`(qualified_teams, drafted)` — only the qualified aggregate index is
returned, the unfiltered `team_stats` is a local discarded at return. -/
def analyze_team_draft_efficiency (df : List Player) :
    Option (List String × List Player) :=
  let drafted := drafted_rows df
  if drafted.length = 0 then none
  else some (qualified_teams drafted, drafted)

/-- The aggregate index `main` and the report actually see: the first
component of the function's result, `[]` when the function returned `None`. -/
def analyze_returned_teams (df : List Player) : List String :=
  match analyze_team_draft_efficiency df with
  | none => []
  | some r => r.1

/-- `team_draft_efficiency.main`, line 326:
`team_stats, drafted_players = analyze_team_draft_efficiency(df_enhanced)`.
Unpacking `None` raises `TypeError` before the `is not None` guard of line
328 can run; the blanket handler of line 344 reports it as an error. -/
def main_unpack (r : Option (List String × List Player)) :
    Except String (List String × List Player) :=
  match r with
  | none => Except.error "cannot unpack non-iterable NoneType object"
  | some x => Except.ok x

/-- The input columns `calculate_value_metrics` reads, in access order
(`value_metrics.py` lines 24, 31): `PTS`, `REB`, `AST`, `career_length`,
then `DRAFT_NUMBER`. -/
def value_metrics_input_columns : List String :=
  ["PTS", "REB", "AST", "career_length", "DRAFT_NUMBER"]

/-- Schema behaviour of `calculate_value_metrics` on a table with the given
columns: the first absent column among those it accesses raises a
`KeyError` naming that one column; with all present the computation runs. -/
def calculate_value_metrics_schema (cols : List String) : Except String Unit :=
  match value_metrics_input_columns.find? (fun c => decide (c ∉ cols)) with
  | some c => Except.error c
  | none => Except.ok ()

/-- `analysis.main`, line 151: `required_columns = ['value_score',
'draft_value_ratio']` — the only every-missing-column check in the
pipeline, and it covers just these two derived columns. -/
def required_columns : List String :=
  ["value_score", "draft_value_ratio"]

/-- `analysis.main`, line 152:
`[col for col in required_columns if col not in df.columns]`. -/
def missing_columns (cols : List String) : List String :=
  required_columns.filter (fun c => decide (c ∉ cols))

/-! Concrete rows and tables used to evaluate the definitions. -/

/-- The worked example of the spec: 20 PTS, 5 REB, 5 AST, a 10-year career,
drafted 5th. -/
def pEx : Player :=
  { PLAYER_FIRST_NAME := "Ex", PLAYER_LAST_NAME := "Ample", TEAM_NAME := "T",
    DRAFT_YEAR := 2000, DRAFT_ROUND := some 1, DRAFT_NUMBER := some 5,
    PTS := 20, REB := 5, AST := 5, career_length := 10 }

/-- A record with a PRESENT draft number equal to 0 and a positive career:
the `roi_per_season` guard accepts it and the division hits a zero
denominator. -/
def pZero : Player :=
  { PLAYER_FIRST_NAME := "Zed", PLAYER_LAST_NAME := "Null", TEAM_NAME := "T",
    DRAFT_YEAR := 2000, DRAFT_ROUND := some 1, DRAFT_NUMBER := some 0,
    PTS := 10, REB := 0, AST := 0, career_length := 1 }

/-- An undrafted player (null draft number). -/
def pUndrafted : Player :=
  { PLAYER_FIRST_NAME := "Un", PLAYER_LAST_NAME := "Drafted", TEAM_NAME := "T",
    DRAFT_YEAR := 2000, DRAFT_ROUND := none, DRAFT_NUMBER := none,
    PTS := 5, REB := 2, AST := 2, career_length := 3 }

/-- A table whose every row is undrafted. -/
def dfUndrafted : List Player := [pUndrafted]

/-- A drafted player of team `A` (used 10 times to qualify the team). -/
def pA : Player :=
  { PLAYER_FIRST_NAME := "Aa", PLAYER_LAST_NAME := "Aa", TEAM_NAME := "A",
    DRAFT_YEAR := 2001, DRAFT_ROUND := some 1, DRAFT_NUMBER := some 1,
    PTS := 10, REB := 4, AST := 3, career_length := 4 }

/-- A single drafted player of team `B` (the team stays below 10 picks). -/
def pB : Player :=
  { PLAYER_FIRST_NAME := "Bb", PLAYER_LAST_NAME := "Bb", TEAM_NAME := "B",
    DRAFT_YEAR := 2002, DRAFT_ROUND := some 2, DRAFT_NUMBER := some 35,
    PTS := 6, REB := 2, AST := 1, career_length := 2 }

/-- Team `A` with 10 drafted picks, team `B` with 1. -/
def dfAB : List Player := List.replicate 10 pA ++ [pB]

/-- A quality pick of team `A`: `value_score = (20+5+5)*2 = 60 ≥ 50`. -/
def p1 : Player :=
  { PLAYER_FIRST_NAME := "P", PLAYER_LAST_NAME := "One", TEAM_NAME := "A",
    DRAFT_YEAR := 2003, DRAFT_ROUND := some 1, DRAFT_NUMBER := some 10,
    PTS := 20, REB := 5, AST := 5, career_length := 2 }

/-- A low-value pick of team `A`: `value_score = 1`. -/
def p2 : Player :=
  { PLAYER_FIRST_NAME := "P", PLAYER_LAST_NAME := "Two", TEAM_NAME := "A",
    DRAFT_YEAR := 2004, DRAFT_ROUND := some 2, DRAFT_NUMBER := some 40,
    PTS := 1, REB := 0, AST := 0, career_length := 1 }

/-- Another low-value pick of team `A`: `value_score = 2`. -/
def p3 : Player :=
  { PLAYER_FIRST_NAME := "P", PLAYER_LAST_NAME := "Three", TEAM_NAME := "A",
    DRAFT_YEAR := 2005, DRAFT_ROUND := some 2, DRAFT_NUMBER := some 50,
    PTS := 2, REB := 0, AST := 0, career_length := 1 }

/-- A team of 3 drafted picks of which exactly 1 is a quality pick: the
exact quality rate `100/3` is not representable at one decimal, so the
stored `.round(1)` column differs from it. -/
def df3 : List Player := [p1, p2, p3]

/-- A column set missing both `PTS` and `REB`. -/
def colsMissingTwo : List String :=
  ["PLAYER_FIRST_NAME", "PLAYER_LAST_NAME", "TEAM_NAME", "DRAFT_YEAR",
   "DRAFT_ROUND", "DRAFT_NUMBER", "AST", "career_length"]

/-- The full input column set. -/
def colsAll : List String :=
  ["PLAYER_FIRST_NAME", "PLAYER_LAST_NAME", "TEAM_NAME", "DRAFT_YEAR",
   "DRAFT_ROUND", "DRAFT_NUMBER", "PTS", "REB", "AST", "career_length"]

/-! Helper lemmas about the rounding function and the aggregation counts. -/

theorem roundHalfEven_nonneg {x : ℚ} (h : 0 ≤ x) : 0 ≤ roundHalfEven x := by
  have hf : 0 ≤ ⌊x⌋ := Int.floor_nonneg.mpr h
  unfold roundHalfEven
  split_ifs <;> omega

theorem roundHalfEven_le (x : ℚ) : (roundHalfEven x : ℚ) ≤ x + 1 / 2 := by
  have hfr : (⌊x⌋ : ℚ) + Int.fract x = x := Int.floor_add_fract x
  unfold roundHalfEven
  split_ifs with h1 h2 <;> push_cast <;> linarith [Int.floor_le x]

theorem round1_nonneg {x : ℚ} (h : 0 ≤ x) : 0 ≤ round1 x := by
  unfold round1
  have : (0 : ℚ) ≤ (roundHalfEven (x * 10) : ℚ) := by
    exact_mod_cast roundHalfEven_nonneg (by linarith)
  linarith

theorem round1_le_100 {x : ℚ} (h : x ≤ 100) : round1 x ≤ 100 := by
  have h1 : (roundHalfEven (x * 10) : ℚ) ≤ x * 10 + 1 / 2 :=
    roundHalfEven_le (x * 10)
  have h2 : (roundHalfEven (x * 10) : ℚ) < 1001 := by linarith
  have h3 : roundHalfEven (x * 10) ≤ 1000 := by
    have : roundHalfEven (x * 10) < 1001 := by exact_mod_cast h2
    omega
  unfold round1
  have : (roundHalfEven (x * 10) : ℚ) ≤ 1000 := by exact_mod_cast h3
  linarith

theorem group_size_getD_le (rows : List Player) (keep : Player → Bool)
    (team : String) :
    (group_size rows keep team).getD 0 ≤ total_picks rows team := by
  unfold group_size total_picks
  split_ifs with h
  · simp
  · simp only [Option.getD_some]
    rw [← List.countP_eq_length_filter, ← List.countP_eq_length_filter]
    refine List.countP_mono_left fun p _ hp => ?_
    exact (Bool.and_eq_true _ _ |>.mp hp).1

theorem total_picks_pos {rows : List Player} {t : String}
    (ht : t ∈ team_names rows) : 0 < total_picks rows t := by
  unfold team_names at ht
  rw [List.mem_dedup, List.mem_map] at ht
  obtain ⟨p, hp, hpt⟩ := ht
  unfold total_picks
  have hmem : p ∈ rows.filter (fun q => q.TEAM_NAME = t) := by
    rw [List.mem_filter]
    exact ⟨hp, by simp [hpt]⟩
  exact List.length_pos.mpr (List.ne_nil_of_mem hmem)

/-- **C9.** For every player record, `value_score` equals
`(PTS + REB + AST) * career_length`, and it is non-negative whenever the
per-game stats and the career length are non-negative (it may be 0 for a
zero-career player). -/
theorem c9_value_score (p : Player) (h1 : 0 ≤ p.PTS) (h2 : 0 ≤ p.REB)
    (h3 : 0 ≤ p.AST) (h4 : 0 ≤ p.career_length) :
    value_score p = (p.PTS + p.REB + p.AST) * p.career_length ∧
    0 ≤ value_score p := by
  refine ⟨rfl, ?_⟩
  unfold value_score
  have : 0 ≤ p.PTS + p.REB + p.AST := by linarith
  exact mul_nonneg this h4

/-- Witness for C9 at the spec's worked example (20, 5, 5 over 10 years):
the score evaluates to 300 and the theorem's non-negativity applies. -/
theorem c9_witness : value_score pEx = 300 ∧ 0 ≤ value_score pEx := by
  have h := c9_value_score pEx (by norm_num [pEx]) (by norm_num [pEx])
    (by norm_num [pEx]) (by norm_num [pEx])
  exact ⟨by norm_num [value_score, pEx], h.2⟩

/-- **C7.** `draft_value_ratio` is non-null iff the draft number is present
and strictly positive, and is then exactly `value_score / draft_number`;
undrafted players and non-positive draft numbers never receive a ratio. -/
theorem c7_draft_value_ratio (p : Player) :
    ( draft_value_ratio p ≠ none ↔
      ∃ d : ℚ, p.DRAFT_NUMBER = some d ∧ 0 < d) ∧
    ∀ d : ℚ, p.DRAFT_NUMBER = some d → 0 < d →
      draft_value_ratio p = some (value_score p / d) := by
  constructor
  · cases h : p.DRAFT_NUMBER with
    | none => simp [draft_value_ratio, h]
    | some d =>
        by_cases hd : 0 < d
        · simp [draft_value_ratio, h, hd]
        · simp [draft_value_ratio, h, hd]
  · intro d hd hpos
    simp [draft_value_ratio, hd, hpos]

/-- **C10.** The team-level count fields obtained by `.map` over the
aggregate index followed by `.fillna(0)` are total: for every team they
equal the plain count of that team's drafted players passing the threshold
filter, so a team with no qualifying player gets the number 0, never a
missing value (and as counts they are trivially non-negative). -/
theorem c10_count_fields (df : List Player) (team : String) :
    quality_picks (drafted_rows df) team =
      ((drafted_rows df).filter
        (fun p => decide (p.TEAM_NAME = team)
          && decide (50 ≤ value_score p))).length ∧
    elite_picks (drafted_rows df) team =
      ((drafted_rows df).filter
        (fun p => decide (p.TEAM_NAME = team)
          && decide (200 ≤ value_score p))).length ∧
    late_round_gems (drafted_rows df) team =
      ((drafted_rows df).filter
        (fun p => decide (p.TEAM_NAME = team)
          && ((match p.DRAFT_NUMBER with
              | some d => decide (15 < d)
              | none => false)
            && decide (100 ≤ value_score p)))).length := by
  refine ⟨?_, ?_, ?_⟩ <;>
    · simp only [quality_picks, elite_picks, late_round_gems, group_size]
      split_ifs with h
      · simpa using h.symm
      · rfl

/-- **C8.** `draft_category` and `quality_tier` are total with no gaps or
overlaps at the stated boundaries: a null draft number maps to `Undrafted`
and, over integer draft numbers, the four remaining buckets are exactly
`≤5`, `6–14`, `15–30` and `≥31`; over `value_score`, the five tiers are
exactly `≥200`, `[100,200)`, `[50,100)`, `[20,50)` and `<20`.  Each bucket
characterisation is an iff, so every input receives exactly one label. -/
theorem c8_total_partitions :
    categorize_pick none = "Undrafted" ∧
    (∀ n : ℤ,
      ((n ≤ 5) ↔ categorize_pick (some (n : ℚ)) = "Lottery (1-5)") ∧
      ((6 ≤ n ∧ n ≤ 14) ↔
        categorize_pick (some (n : ℚ)) = "Lottery (6-14)") ∧
      ((15 ≤ n ∧ n ≤ 30) ↔
        categorize_pick (some (n : ℚ)) = "First Round (15-30)") ∧
      ((31 ≤ n) ↔
        categorize_pick (some (n : ℚ)) = "Second Round (31+)")) ∧
    (∀ v : ℚ,
      ((200 ≤ v) ↔ quality_tier v = "Elite (200+)") ∧
      ((100 ≤ v ∧ v < 200) ↔ quality_tier v = "High Quality (100-199)") ∧
      ((50 ≤ v ∧ v < 100) ↔ quality_tier v = "Solid Contributor (50-99)") ∧
      ((20 ≤ v ∧ v < 50) ↔ quality_tier v = "Role Player (20-49)") ∧
      ((v < 20) ↔ quality_tier v = "Limited Impact (0-19)")) := by
  refine ⟨rfl, fun n => ?_, fun v => ?_⟩
  · have h5 : ((n : ℚ) ≤ 5) ↔ (n ≤ 5) := by norm_cast
    have h14 : ((n : ℚ) ≤ 14) ↔ (n ≤ 14) := by norm_cast
    have h30 : ((n : ℚ) ≤ 30) ↔ (n ≤ 30) := by norm_cast
    simp only [categorize_pick]
    split_ifs with h1 h2 h3 <;>
      rw [h5] at h1 <;>
      try rw [h14] at h2 <;> try rw [h30] at h3
    all_goals refine ⟨?_, ?_, ?_, ?_⟩ <;> simp <;> omega
  · simp only [quality_tier]
    split_ifs with h1 h2 h3 h4
    all_goals refine ⟨?_, ?_, ?_, ?_, ?_⟩ <;> simp <;>
      first
        | linarith
        | (intro hx; linarith)
        | (constructor <;> linarith)

/-- **C5.** `efficiency_score` is a finite value exactly when the draft
number is present and the baseline `100 - draft_number` is strictly
positive, and then equals `value_score / (100 - draft_number)`; for
`draft_number ≥ 100` and for undrafted players it is `NaN`; it is never an
infinity, and (given non-negative inputs) never negative. -/
theorem c5_efficiency_score (p : Player) (h1 : 0 ≤ p.PTS) (h2 : 0 ≤ p.REB)
    (h3 : 0 ≤ p.AST) (h4 : 0 ≤ p.career_length) :
    (efficiency_score p ≠ PFloat.nan ↔
      ∃ d : ℚ, p.DRAFT_NUMBER = some d ∧ d < 100) ∧
    (∀ d : ℚ, p.DRAFT_NUMBER = some d → d < 100 →
      efficiency_score p = PFloat.val (value_score p / (100 - d))) ∧
    efficiency_score p ≠ PFloat.inf ∧
    efficiency_score p ≠ PFloat.ninf ∧
    (∀ q : ℚ, efficiency_score p = PFloat.val q → 0 ≤ q) := by
  have hvs : 0 ≤ value_score p := by
    unfold value_score
    exact mul_nonneg (by linarith) h4
  have key : ∀ d : ℚ, p.DRAFT_NUMBER = some d → d < 100 →
      efficiency_score p = PFloat.val (value_score p / (100 - d)) := by
    intro d hd hlt
    have hpos : (0 : ℚ) < 100 - d := by linarith
    unfold efficiency_score expected_value fdiv
    rw [hd]
    simp only [if_pos hpos, if_pos (ne_of_gt hpos)]
  refine ⟨?_, key, ?_, ?_, ?_⟩
  · cases hd : p.DRAFT_NUMBER with
    | none => simp [efficiency_score, expected_value, hd]
    | some d =>
        by_cases hlt : d < 100
        · rw [key d hd hlt]
          simp [hd, hlt]
        · have hle : (100 : ℚ) - d ≤ 0 := by linarith [not_lt.mp hlt]
          simp only [efficiency_score, expected_value, hd]
          rw [if_neg (by linarith)]
          simp [hd, hlt]
  · cases hd : p.DRAFT_NUMBER with
    | none => simp [efficiency_score, expected_value, hd]
    | some d =>
        by_cases hlt : d < 100
        · rw [key d hd hlt]
          simp
        · simp only [efficiency_score, expected_value, hd]
          rw [if_neg (by linarith [not_lt.mp hlt])]
          simp
  · cases hd : p.DRAFT_NUMBER with
    | none => simp [efficiency_score, expected_value, hd]
    | some d =>
        by_cases hlt : d < 100
        · rw [key d hd hlt]
          simp
        · simp only [efficiency_score, expected_value, hd]
          rw [if_neg (by linarith [not_lt.mp hlt])]
          simp
  · intro q hq
    cases hd : p.DRAFT_NUMBER with
    | none => simp [efficiency_score, expected_value, hd] at hq
    | some d =>
        by_cases hlt : d < 100
        · rw [key d hd hlt] at hq
          have hpos : (0 : ℚ) < 100 - d := by linarith
          have : q = value_score p / (100 - d) := by
            injection hq.symm
          rw [this]
          exact div_nonneg hvs (le_of_lt hpos)
        · simp only [efficiency_score, expected_value, hd] at hq
          rw [if_neg (by linarith [not_lt.mp hlt])] at hq
          exact absurd hq (by simp)

/-- Witness for C5: at the spec's worked example (drafted 5th, value 300)
the efficiency evaluates to the finite non-negative value `300 / 95`. -/
theorem c5_witness :
    efficiency_score pEx = PFloat.val (300 / 95) ∧ (0 : ℚ) ≤ 300 / 95 := by
  have h := c5_efficiency_score pEx (by norm_num [pEx]) (by norm_num [pEx])
    (by norm_num [pEx]) (by norm_num [pEx])
  have he := h.2.1 5 (by norm_num [pEx]) (by norm_num)
  constructor
  · rw [he]
    norm_num [value_score, pEx]
  · exact h.2.2.2.2 (300 / 95) (by rw [he]; norm_num [value_score, pEx])

/-- **C1, counterexample.** A record with a positive career and a PRESENT
draft number equal to 0 passes the `np.where` guard, so the metric IS
computed with a zero denominator: the result is `+inf` — a non-null value
that is no rational quotient at all — refuting "the metric is never
computed when its denominator would be zero or undefined". -/
theorem c1_counterexample :
    pZero.DRAFT_NUMBER = some 0 ∧ (0 : ℚ) < pZero.career_length ∧
    pZero.career_length * 0 = 0 ∧
    roi_per_season pZero ≠ PFloat.nan ∧
    roi_per_season pZero = PFloat.inf := by
  have h : roi_per_season pZero = PFloat.inf := by
    norm_num [roi_per_season, fdiv, value_score, pZero]
  exact ⟨rfl, by norm_num [pZero], by ring, by rw [h]; simp, h⟩

/-- **C1, amended.** `roi_per_season` is `NaN` when the draft number is
absent or the career length is not positive; when `career_length > 0`, the
draft number is present and the denominator `career_length * draft_number`
is nonzero it equals `value_score / (career_length * draft_number)`; but
when the guard passes with a zero denominator (a present draft number 0)
the division is still computed, yielding `+inf`/`-inf` for a nonzero
`value_score` and `NaN` for a zero one. -/
theorem c1_amended (p : Player) :
    (p.DRAFT_NUMBER = none → roi_per_season p = PFloat.nan) ∧
    (p.career_length ≤ 0 → roi_per_season p = PFloat.nan) ∧
    (∀ d : ℚ, p.DRAFT_NUMBER = some d → 0 < p.career_length →
      p.career_length * d ≠ 0 →
      roi_per_season p = PFloat.val (value_score p / (p.career_length * d))) ∧
    (∀ d : ℚ, p.DRAFT_NUMBER = some d → 0 < p.career_length →
      p.career_length * d = 0 → 0 < value_score p →
      roi_per_season p = PFloat.inf) ∧
    (∀ d : ℚ, p.DRAFT_NUMBER = some d → 0 < p.career_length →
      p.career_length * d = 0 → value_score p < 0 →
      roi_per_season p = PFloat.ninf) ∧
    (∀ d : ℚ, p.DRAFT_NUMBER = some d → 0 < p.career_length →
      p.career_length * d = 0 → value_score p = 0 →
      roi_per_season p = PFloat.nan) := by
  refine ⟨?_, ?_, ?_, ?_, ?_, ?_⟩
  · intro h
    simp [roi_per_season, h]
  · intro h
    cases hd : p.DRAFT_NUMBER with
    | none => simp [roi_per_season, hd]
    | some d => simp [roi_per_season, hd, not_lt.mpr h]
  · intro d hd hc hne
    simp only [roi_per_season, hd, if_pos hc, fdiv, if_pos hne]
  · intro d hd hc hz hv
    simp only [roi_per_season, hd, if_pos hc, fdiv]
    rw [if_neg (by simp [hz]), if_pos hv]
  · intro d hd hc hz hv
    simp only [roi_per_season, hd, if_pos hc, fdiv]
    rw [if_neg (by simp [hz]), if_neg (by linarith), if_pos hv]
  · intro d hd hc hz hv
    simp only [roi_per_season, hd, if_pos hc, fdiv]
    rw [if_neg (by simp [hz]), if_neg (by simp [hv]), if_neg (by simp [hv])]

/-- **C3.** With an input containing no drafted players the aggregator
returns Python `None` (not an empty frame), and `main`'s tuple unpacking of
that `None` raises `TypeError` — caught only by the blanket error handler —
before the `is not None` guard can short-circuit: the run ends in an error
report, not a "no data" signal. -/
theorem c3_no_drafted_players_crash :
    analyze_team_draft_efficiency dfUndrafted = none ∧
    main_unpack (analyze_team_draft_efficiency dfUndrafted) =
      Except.error "cannot unpack non-iterable NoneType object" := by
  constructor <;> rfl

/-- **C4, counterexample.** Team `B` has a drafted player, hence an entry in
the full internal aggregate, but only 1 pick: the value the aggregator
returns contains team `A` alone, so the unqualified team is NOT retained in
any exposed aggregate set — the full set is a discarded local. -/
theorem c4_counterexample :
    analyze_returned_teams dfAB = ["A"] ∧
    "B" ∈ team_names (drafted_rows dfAB) ∧
    "B" ∉ analyze_returned_teams dfAB := by
  refine ⟨?_, ?_, ?_⟩ <;> decide

/-- **C4, amended.** The team set the aggregator returns is exactly the
qualified subset `{t : total_picks t ≥ 10}` of the teams with a drafted
player; unqualified teams are excluded from the returned aggregate (the
unfiltered aggregate exists only as a local inside the function). -/
theorem c4_amended (df : List Player) (t : String) :
    t ∈ analyze_returned_teams df ↔
      t ∈ team_names (drafted_rows df) ∧
      10 ≤ total_picks (drafted_rows df) t := by
  by_cases h : (drafted_rows df).length = 0
  · have hnil : drafted_rows df = [] := List.length_eq_zero.mp h
    simp [analyze_returned_teams, analyze_team_draft_efficiency, hnil,
      team_names]
  · simp [analyze_returned_teams, analyze_team_draft_efficiency, h,
      qualified_teams, List.mem_filter]

/-- **C6, counterexample.** A team with 3 drafted picks of which exactly 1
is a quality pick: the stored `quality_pick_rate` column is the ROUNDED
value `33.3`, not the exact `100 * quality_picks / total_picks = 100/3`, so
the rate is not retained at full precision internally. -/
theorem c6_counterexample :
    quality_picks (drafted_rows df3) "A" = 1 ∧
    total_picks (drafted_rows df3) "A" = 3 ∧
    quality_pick_rate (drafted_rows df3) "A" = 333 / 10 ∧
    (333 / 10 : ℚ) ≠ 100 * 1 / 3 := by
  have h1 : quality_picks (drafted_rows df3) "A" = 1 := by
    norm_num [quality_picks, group_size, drafted_rows, df3, p1, p2, p3,
      value_score, List.filter]
  have h2 : total_picks (drafted_rows df3) "A" = 3 := by
    norm_num [total_picks, drafted_rows, df3, p1, p2, p3, List.filter]
  have h3 : quality_pick_rate (drafted_rows df3) "A" = 333 / 10 := by
    unfold quality_pick_rate
    rw [h1, h2]
    norm_num [round1, roundHalfEven, Int.fract]
  exact ⟨h1, h2, h3, by norm_num⟩

/-- **C6, amended.** For every team in the aggregate, `total_picks` is the
count of drafted players with that team name and the stored
`quality_pick_rate` is `100 * quality_picks / total_picks` ROUNDED to one
decimal (round half to even) — the rounded value is what the frame keeps —
and both stored rates still lie in `[0, 100]` (likewise `elite_pick_rate`). -/
theorem c6_amended (df : List Player) (t : String)
    (ht : t ∈ team_names (drafted_rows df)) :
    total_picks (drafted_rows df) t =
      ((drafted_rows df).filter (fun p => p.TEAM_NAME = t)).length ∧
    quality_picks (drafted_rows df) t ≤ total_picks (drafted_rows df) t ∧
    quality_pick_rate (drafted_rows df) t =
      round1 ((quality_picks (drafted_rows df) t : ℚ) /
        (total_picks (drafted_rows df) t : ℚ) * 100) ∧
    0 ≤ quality_pick_rate (drafted_rows df) t ∧
    quality_pick_rate (drafted_rows df) t ≤ 100 ∧
    0 ≤ elite_pick_rate (drafted_rows df) t ∧
    elite_pick_rate (drafted_rows df) t ≤ 100 := by
  have htp : 0 < total_picks (drafted_rows df) t := total_picks_pos ht
  have hq : quality_picks (drafted_rows df) t
      ≤ total_picks (drafted_rows df) t := group_size_getD_le _ _ _
  have he : elite_picks (drafted_rows df) t
      ≤ total_picks (drafted_rows df) t := group_size_getD_le _ _ _
  have htp' : (0 : ℚ) < (total_picks (drafted_rows df) t : ℚ) := by
    exact_mod_cast htp
  have bound : ∀ q : Nat, q ≤ total_picks (drafted_rows df) t →
      0 ≤ (q : ℚ) / (total_picks (drafted_rows df) t : ℚ) * 100 ∧
      (q : ℚ) / (total_picks (drafted_rows df) t : ℚ) * 100 ≤ 100 := by
    intro q hle
    have hcast : (q : ℚ) ≤ (total_picks (drafted_rows df) t : ℚ) := by
      exact_mod_cast hle
    constructor
    · positivity
    · rw [div_mul_eq_mul_div, div_le_iff₀ htp']
      nlinarith
  refine ⟨rfl, hq, rfl, ?_, ?_, ?_, ?_⟩
  · exact round1_nonneg (bound _ hq).1
  · exact round1_le_100 (bound _ hq).2
  · exact round1_nonneg (bound _ he).1
  · exact round1_le_100 (bound _ he).2

/-- Witness for the amended C6 at the concrete 3-pick team: the stored
(rounded) rate lies in `[0, 100]`. -/
theorem c6_witness :
    0 ≤ quality_pick_rate (drafted_rows df3) "A" ∧
    quality_pick_rate (drafted_rows df3) "A" ≤ 100 := by
  have h := c6_amended df3 "A" (by decide)
  exact ⟨h.2.2.2.1, h.2.2.2.2.1⟩

/-- **C2, counterexample.** With both `PTS` and `REB` absent from the input
table, the metric computation aborts on the first access with
`KeyError: 'PTS'` — an error naming ONE missing column, not every missing
column (`REB` is also required and absent but unnamed). -/
theorem c2_counterexample :
    calculate_value_metrics_schema colsMissingTwo = Except.error "PTS" ∧
    "REB" ∉ colsMissingTwo ∧
    ("PTS" : String) ≠ "REB" := by
  refine ⟨rfl, by decide, by decide⟩

/-- **C2, amended.** A required input column absent from the table makes
the metric calculator abort with a `KeyError` naming a single missing
column (the first one it accesses among `PTS`, `REB`, `AST`,
`career_length`, `DRAFT_NUMBER`) — it runs to completion iff all of those
are present; the only check that reports EVERY missing column at once is
`analysis.main`'s, and it covers just the two derived columns
`value_score` and `draft_value_ratio`. -/
theorem c2_amended (cols : List String) :
    (calculate_value_metrics_schema cols = Except.ok () ↔
      ∀ c ∈ value_metrics_input_columns, c ∈ cols) ∧
    (∀ c : String, calculate_value_metrics_schema cols = Except.error c →
      c ∈ value_metrics_input_columns ∧ c ∉ cols) ∧
    (∀ c : String, c ∈ missing_columns cols ↔
      c ∈ required_columns ∧ c ∉ cols) := by
  refine ⟨?_, ?_, ?_⟩
  · unfold calculate_value_metrics_schema
    cases hf : value_metrics_input_columns.find? (fun c => decide (c ∉ cols)) with
    | none =>
        simp only [List.find?_eq_none, decide_eq_true_eq] at hf
        simp only [true_iff]
        intro c hc
        by_contra hnc
        exact hf c hc hnc
    | some c =>
        have hp := List.find?_some hf
        have hm := List.mem_of_find?_eq_some hf
        simp only [decide_eq_true_eq] at hp
        constructor
        · intro h
          exact absurd h (by simp)
        · intro hall
          exact absurd (hall c hm) hp
  · unfold calculate_value_metrics_schema
    cases hf : value_metrics_input_columns.find? (fun c => decide (c ∉ cols)) with
    | none => simp
    | some c =>
        intro c' hc'
        have heq : c = c' := by
          simpa using hc'
        subst heq
        have hp := List.find?_some hf
        have hm := List.mem_of_find?_eq_some hf
        simp only [decide_eq_true_eq] at hp
        exact ⟨hm, hp⟩
  · intro c
    unfold missing_columns
    rw [List.mem_filter]
    simp

end NBA
